import Mathlib

/-!
Shallow embedding of `src/mqtt_mcp/mqtt_client.py` (AsyncioHelper and
AsyncMQTTClient) and proofs about its connect, receive, publish and close
paths.

Conventions:
* Python exceptions become values of `Err`; an `asyncio.Future` becomes a
  `FutureState`, where settling an already-settled future leaves it unchanged
  (asyncio raises `InvalidStateError` in that case and the stored outcome
  never changes).
* Real-time waits are recorded as trace entries carrying their bounds in
  milliseconds; callbacks delivered by the transport during a wait window are
  passed in as an explicit event list, folded through the installed handler.
* Byte strings are `List Nat` (byte values); `bytes.decode()` is modelled by
  a strict UTF-8 decoder `decodePayload`.
-/

deriving instance DecidableEq for Except

namespace MqttMcp

/-- `mqtt.MQTT_ERR_SUCCESS` from paho. -/
def mqttErrSuccess : Nat := 0

/-- `mqtt.MQTT_ERR_NO_CONN` from paho, the code `Client.disconnect` returns
when there is no live connection; `__aexit__` ignores it. -/
def mqttErrNoConn : Nat := 4

/-- The exceptions `mqtt_client.py` raises or stores into futures.
`timeoutError` stands for `asyncio.TimeoutError`, `decodeError` for the
`UnicodeDecodeError` raised by `message.payload.decode()`. -/
inductive Err where
  | connectFailed (rc : Nat)
  | disconnected (rc : Nat)
  | connectTimeout (host : String) (port : Nat)
  | subscribeFailed (rc : Nat)
  | publishFailed (rc : Nat)
  | timeoutError
  | decodeError
deriving DecidableEq

/-- The f-string messages the code attaches to each `RuntimeError`. -/
def Err.message : Err → String
  | .connectFailed rc => "MQTT connection failed with code " ++ toString rc
  | .disconnected rc => "MQTT disconnected with code " ++ toString rc
  | .connectTimeout host port =>
      "Failed to connect to MQTT broker at " ++ host ++ ":" ++ toString port
        ++ " (timeout)"
  | .subscribeFailed rc => "Subscribe failed with code " ++ toString rc
  | .publishFailed rc => "Publish failed with code " ++ toString rc
  | .timeoutError => "TimeoutError"
  | .decodeError => "UnicodeDecodeError"

/-- The state of an `asyncio.Future`: pending, settled with a result, or
settled with an exception. -/
inductive FutureState (α : Type) where
  | pending
  | result (v : α)
  | failure (e : Err)
deriving DecidableEq

/-- `Future.done()`. -/
def FutureState.done {α : Type} : FutureState α → Bool
  | .pending => false
  | _ => true

/-- `Future.set_result`: asyncio raises `InvalidStateError` on an
already-settled future and the stored outcome is unchanged. -/
def FutureState.setResult {α : Type} (s : FutureState α) (v : α) : FutureState α :=
  if s.done then s else .result v

/-- `Future.set_exception`, with the same already-settled behaviour. -/
def FutureState.setException {α : Type} (s : FutureState α) (e : Err) : FutureState α :=
  if s.done then s else .failure e

/-- A UTF-8 continuation byte (`0x80..0xBF`). -/
def isCont (b : Nat) : Bool := 0x80 ≤ b && b < 0xC0

/-- Strict UTF-8 decoding of a byte list into characters, rejecting stray
continuation bytes, overlong encodings, surrogates and values above
`0x10FFFF`, exactly as the `strict` mode of `bytes.decode()` does. -/
def utf8DecodeAux : List Nat → Option (List Char)
  | [] => some []
  | b :: rest =>
    if b < 0x80 then
      (utf8DecodeAux rest).map (fun cs => Char.ofNat b :: cs)
    else if b < 0xC2 then none
    else if b < 0xE0 then
      match rest with
      | b1 :: rest2 =>
        if isCont b1 then
          (utf8DecodeAux rest2).map
            (fun cs => Char.ofNat ((b - 0xC0) * 0x40 + (b1 - 0x80)) :: cs)
        else none
      | _ => none
    else if b < 0xF0 then
      match rest with
      | b1 :: b2 :: rest3 =>
        if isCont b1 && isCont b2
            && (b != 0xE0 || b1 ≥ 0xA0)
            && (b != 0xED || b1 < 0xA0) then
          (utf8DecodeAux rest3).map (fun cs =>
            Char.ofNat ((b - 0xE0) * 0x1000 + (b1 - 0x80) * 0x40 + (b2 - 0x80)) :: cs)
        else none
      | _ => none
    else if b < 0xF5 then
      match rest with
      | b1 :: b2 :: b3 :: rest4 =>
        if isCont b1 && isCont b2 && isCont b3
            && (b != 0xF0 || b1 ≥ 0x90)
            && (b != 0xF4 || b1 < 0x90) then
          (utf8DecodeAux rest4).map (fun cs =>
            Char.ofNat ((b - 0xF0) * 0x40000 + (b1 - 0x80) * 0x1000
              + (b2 - 0x80) * 0x40 + (b3 - 0x80)) :: cs)
        else none
      | _ => none
    else none

/-- `message.payload.decode()`: `none` models a raised `UnicodeDecodeError`. -/
def decodePayload (p : List Nat) : Option String :=
  (utf8DecodeAux p).map String.mk

/-- A value stored in a paho callback slot: `prev i` is any handler a caller
installed before the current operation, the `temp` values are the closures
`receive` installs for its own lifetime. -/
inductive Handler where
  | prev (id : Nat)
  | tempOnMessage
  | tempOnSubscribe
deriving DecidableEq

/-- The `on_message` / `on_subscribe` slots of the paho client; `none` is the
paho default (attribute present, value `None`). -/
structure Handlers where
  onMessage : Option Handler
  onSubscribe : Option Handler
deriving DecidableEq

/-- An incoming MQTT message as seen by the `on_message` callback. -/
structure MqttMessage where
  topic : String
  payload : List Nat
deriving DecidableEq

/-- The `misc` maintenance task created by `AsyncioHelper.on_socket_open`. -/
structure TaskHandle where
  cancelled : Bool
deriving DecidableEq

/-- The observable state of an `AsyncioHelper`: `loopStarted` is the Windows
`loop_start` thread, `misc` the Unix maintenance task (absent when
`on_socket_open` never ran, i.e. attach partially failed). -/
structure HelperState where
  isWindows : Bool
  loopStarted : Bool
  misc : Option TaskHandle
deriving DecidableEq

/-- `AsyncioHelper.start_loop`: calls `loop_start` on Windows, does nothing on
Unix (socket callbacks drive the loop there). -/
def start_loop (s : HelperState) : HelperState :=
  if s.isWindows then { s with loopStarted := true } else s

/-- `AsyncioHelper.stop_loop`: `loop_stop` on Windows, else cancel `misc` when
`hasattr(self, "misc")`. -/
def stop_loop (s : HelperState) : HelperState :=
  if s.isWindows then { s with loopStarted := false }
  else
    match s.misc with
    | some t => { s with misc := some { t with cancelled := true } }
    | none => s

/-- Whether a readiness loop is still running: the Windows thread, or a
not-yet-cancelled Unix maintenance task. -/
def readinessActive (s : HelperState) : Bool :=
  if s.isWindows then s.loopStarted
  else
    match s.misc with
    | some t => !t.cancelled
    | none => false

/-- The futures the connect-phase callbacks can see: `connectionFuture` is
the future `__aenter__` creates; `receiveFuture` is `self.future`, the slot a
later `receive` call stores its message future in (absent outside a receive).
The connect-phase callbacks never reference `self.future`. -/
structure ConnCallbackState where
  connectionFuture : FutureState Bool
  receiveFuture : Option (FutureState String)
deriving DecidableEq

/-- The `on_connect` closure in `__aenter__` (lines 97-104): reason code 0
settles `connection_future` with `True`, anything else settles it with a
`RuntimeError` carrying the code. There is no `done()` guard; the guard in
`FutureState.setResult` is the one asyncio itself enforces. -/
def on_connect (rc : Nat) (s : ConnCallbackState) : ConnCallbackState :=
  if rc = 0 then
    { s with connectionFuture := s.connectionFuture.setResult true }
  else
    { s with connectionFuture := s.connectionFuture.setException (.connectFailed rc) }

/-- The `on_disconnect` closure in `__aenter__` (lines 106-115): on a non-zero
reason code, if `connection_future` is not done, settle it with a
`RuntimeError`. It touches no other future. -/
def on_disconnect (rc : Nat) (s : ConnCallbackState) : ConnCallbackState :=
  if rc ≠ 0 then
    if ¬ s.connectionFuture.done then
      { s with connectionFuture := s.connectionFuture.setException (.disconnected rc) }
    else s
  else s

/-- A connect-phase transport event: a CONNACK with a reason code, or a
disconnect with a reason code. -/
inductive CEvent where
  | connect (rc : Nat)
  | disconnect (rc : Nat)
deriving DecidableEq

/-- Dispatch of a transport event to the installed connect-phase callbacks. -/
def connStep (s : ConnCallbackState) : CEvent → ConnCallbackState
  | .connect rc => on_connect rc s
  | .disconnect rc => on_disconnect rc s

/-- The bound of `asyncio.wait_for(connection_future, timeout=5.0)`. -/
def connectWaitMs : Nat := 5000

/-- What `__aenter__` leaves behind: its outcome and the helper state. -/
structure AenterResult where
  outcome : Except Err Unit
  helper : HelperState
  waitMs : Nat
deriving DecidableEq

/-- `AsyncMQTTClient.__aenter__` (lines 90-135): starts the loop, connects,
then awaits `connection_future` with a 5 second bound. `evs` are the
transport events delivered within that window; if they leave the future
pending the code stops the loop and raises the connect-timeout error, a
stored exception is re-raised, and a result returns successfully. -/
def aenter (host : String) (port : Nat) (helper : HelperState)
    (evs : List CEvent) : AenterResult :=
  let h := start_loop helper
  let f := (evs.foldl connStep
    { connectionFuture := .pending, receiveFuture := none }).connectionFuture
  match f with
  | .result _ => { outcome := .ok (), helper := h, waitMs := connectWaitMs }
  | .failure e => { outcome := .error e, helper := h, waitMs := connectWaitMs }
  | .pending =>
      { outcome := .error (.connectTimeout host port)
        helper := stop_loop h
        waitMs := connectWaitMs }

/-- The state the `on_message` closure of `receive` reads and writes:
`self.future` (absent when it is `None`) and the list of messages handed on
to the original `on_message` handler. -/
structure MsgWaitState where
  future : Option (FutureState String)
  forwarded : List MqttMessage
deriving DecidableEq

/-- The `on_message` closure in `receive` (lines 150-161): if the topic
matches, `self.future` is set and not done, decode the payload and settle the
future with the text, or with the decode exception; otherwise forward the
message to the original handler when one exists. -/
def on_message (topic : String) (origMsg : Option Handler)
    (s : MsgWaitState) (m : MqttMessage) : MsgWaitState :=
  match s.future with
  | some f =>
      if m.topic = topic ∧ ¬ f.done then
        match decodePayload m.payload with
        | some str => { s with future := some (f.setResult str) }
        | none =>
            { s with future := some (if f.done then f else f.setException .decodeError) }
      else if origMsg.isSome then { s with forwarded := s.forwarded ++ [m] }
      else s
  | none =>
      if origMsg.isSome then { s with forwarded := s.forwarded ++ [m] } else s

/-- The state the `on_subscribe` closure reads and writes: the
`subscription_future` and the SUBACK message ids handed on to the original
`on_subscribe` handler. -/
structure SubWaitState where
  future : FutureState Bool
  forwarded : List Nat
deriving DecidableEq

/-- The `on_subscribe` closure in `receive` (lines 167-173): settle
`subscription_future` with `True` if not yet done, then always call the
original handler when one exists. -/
def on_subscribe (origSub : Option Handler) (s : SubWaitState) (mid : Nat) :
    SubWaitState :=
  let s1 :=
    if ¬ s.future.done then { s with future := s.future.setResult true } else s
  if origSub.isSome then { s1 with forwarded := s1.forwarded ++ [mid] } else s1

/-- The handler slots right after `receive` installs its closures
(lines 176-177). -/
def installedHandlers : Handlers :=
  { onMessage := some .tempOnMessage, onSubscribe := some .tempOnSubscribe }

/-- The restoration on the subscribe-failure path (lines 182-186): each slot
is written back only when a truthy original handler was saved. -/
def restoreOnError (orig : Handlers) (cur : Handlers) : Handlers :=
  let h1 :=
    if orig.onMessage.isSome then { cur with onMessage := orig.onMessage } else cur
  if orig.onSubscribe.isSome then { h1 with onSubscribe := orig.onSubscribe } else h1

/-- The restoration in the `finally` block (lines 202-209): `on_message` is
written back, or set to `None` when no original existed (the `hasattr` test
is always true on a paho client); `on_subscribe` is written back only when a
truthy original existed. -/
def restoreFinally (orig : Handlers) (cur : Handlers) : Handlers :=
  let h1 :=
    if orig.onMessage.isSome then { cur with onMessage := orig.onMessage }
    else { cur with onMessage := none }
  if orig.onSubscribe.isSome then { h1 with onSubscribe := orig.onSubscribe } else h1

/-- A timed step `receive` performs, with its bound in milliseconds:
the SUBACK wait (timeout swallowed, hence not fatal), the post-subscribe
settle sleep, and the message wait (bound in seconds, caller supplied). -/
inductive Step where
  | waitSubAck (boundMs : Nat) (fatalOnTimeout : Bool)
  | settleSleep (ms : Nat)
  | waitMessage (timeoutS : Nat)
deriving DecidableEq

/-- `await asyncio.wait_for(self.future, timeout)`: a stored result returns,
a stored exception re-raises, a still-pending future means the bound expired
and `asyncio.TimeoutError` is raised. The `none` case cannot arise inside
`receive`, which creates the future on entry. -/
def awaitFuture (f : Option (FutureState String)) : Except Err String :=
  match f with
  | some (.result v) => .ok v
  | some (.failure e) => .error e
  | some .pending => .error .timeoutError
  | none => .error .timeoutError

/-- What a `receive` call leaves behind. -/
structure ReceiveResult where
  outcome : Except Err String
  handlers : Handlers
  forwarded : List MqttMessage
  trace : List Step
deriving DecidableEq

/-- `AsyncMQTTClient.receive` (lines 142-210). `orig` are the handler slots
before the call, `subRc` the result code of `client.subscribe`,
`subAckArrives` whether the SUBACK lands inside the 2 second wait (the code
catches the timeout and passes, so nothing may depend on it), and `msgs` the
messages the transport delivers, in order, while the temporary `on_message`
is installed and the future can still settle. -/
def receive (orig : Handlers) (topic : String) (timeoutS : Nat) (subRc : Nat)
    (_subAckArrives : Bool) (msgs : List MqttMessage) : ReceiveResult :=
  if subRc ≠ mqttErrSuccess then
    { outcome := .error (.subscribeFailed subRc)
      handlers := restoreOnError orig installedHandlers
      forwarded := []
      trace := [] }
  else
    let final := msgs.foldl (on_message topic orig.onMessage)
      { future := some .pending, forwarded := [] }
    { outcome := awaitFuture final.future
      handlers := restoreFinally orig installedHandlers
      forwarded := final.forwarded
      trace := [.waitSubAck 2000 false, .settleSleep 200, .waitMessage timeoutS] }

/-- What a `publish` call leaves behind: its outcome, the
`wait_for_publish` bound when one was used, and the final flush sleep. -/
structure PublishResult where
  outcome : Except Err Unit
  ackWaitMs : Option Nat
  flushDelayMs : Option Nat
deriving DecidableEq

/-- `AsyncMQTTClient.publish` (lines 212-220): `rc` is `result.rc` of
`client.publish`. A non-success code raises at once; otherwise qos above 0
waits up to 5 seconds for the delivery confirmation, and a 0.1 second flush
sleep runs before returning. -/
def publish (rc : Nat) (qos : Nat) : PublishResult :=
  if rc ≠ mqttErrSuccess then
    { outcome := .error (.publishFailed rc), ackWaitMs := none, flushDelayMs := none }
  else
    { outcome := .ok ()
      ackWaitMs := if qos > 0 then some 5000 else none
      flushDelayMs := some 100 }

/-- The connection flag paho keeps for `disconnect`. -/
structure ClientConn where
  connected : Bool
deriving DecidableEq

/-- `paho.Client.disconnect`: returns an error code (`MQTT_ERR_NO_CONN` when
already disconnected) and never raises. -/
def mqtt_disconnect (c : ClientConn) : Nat × ClientConn :=
  if c.connected then (mqttErrSuccess, { connected := false }) else (mqttErrNoConn, c)

/-- The state `__aexit__` acts on. -/
structure CloseState where
  helper : HelperState
  conn : ClientConn
deriving DecidableEq

/-- The externally visible actions of one `__aexit__` call. -/
structure AexitTrace where
  disconnectIssued : Bool
  graceDelayMs : Nat
deriving DecidableEq

/-- `AsyncMQTTClient.__aexit__` (lines 137-140): stop the loop, issue a
disconnect, sleep 0.1 seconds. Every sub-step is total, so the call never
raises. -/
def aexit (s : CloseState) : CloseState × AexitTrace :=
  let h := stop_loop s.helper
  let c := (mqtt_disconnect s.conn).2
  ({ helper := h, conn := c }, { disconnectIssued := true, graceDelayMs := 100 })

/-! ### Helper lemmas -/

theorem setResult_of_done {α : Type} (s : FutureState α) (v : α)
    (h : s.done = true) : s.setResult v = s := by
  simp [FutureState.setResult, h]

theorem setResult_of_pending {α : Type} (s : FutureState α) (v : α)
    (h : s.done = false) : s.setResult v = .result v := by
  simp [FutureState.setResult, h]

theorem setException_of_done {α : Type} (s : FutureState α) (e : Err)
    (h : s.done = true) : s.setException e = s := by
  simp [FutureState.setException, h]

theorem setException_of_pending {α : Type} (s : FutureState α) (e : Err)
    (h : s.done = false) : s.setException e = .failure e := by
  simp [FutureState.setException, h]

theorem connStep_preserves_done (s : ConnCallbackState) (e : CEvent)
    (h : s.connectionFuture.done = true) :
    (connStep s e).connectionFuture = s.connectionFuture := by
  cases e with
  | connect rc =>
      simp only [connStep, on_connect]
      split
      · simp [setResult_of_done _ _ h]
      · simp [setException_of_done _ _ h]
  | disconnect rc =>
      simp [connStep, on_disconnect, h]

theorem connFold_done (evs : List CEvent) (s : ConnCallbackState)
    (h : s.connectionFuture.done = true) :
    (evs.foldl connStep s).connectionFuture = s.connectionFuture := by
  induction evs generalizing s with
  | nil => rfl
  | cons e evs ih =>
      have h1 := connStep_preserves_done s e h
      have h2 : (connStep s e).connectionFuture.done = true := by rw [h1]; exact h
      calc (List.foldl connStep s (e :: evs)).connectionFuture
          = (List.foldl connStep (connStep s e) evs).connectionFuture := rfl
        _ = (connStep s e).connectionFuture := ih (connStep s e) h2
        _ = s.connectionFuture := h1

theorem connStep_not_result (s : ConnCallbackState) (e : CEvent)
    (hs : ∀ b, s.connectionFuture ≠ .result b) (he : e ≠ .connect 0) :
    ∀ b, (connStep s e).connectionFuture ≠ .result b := by
  intro b
  cases e with
  | connect rc =>
      have hrc : ¬ rc = 0 := fun h0 => he (by rw [h0])
      simp only [connStep, on_connect, if_neg hrc, FutureState.setException]
      split
      · exact hs b
      · simp
  | disconnect rc =>
      simp only [connStep, on_disconnect]
      split
      · split
        · simp only [FutureState.setException]
          split
          · exact hs b
          · simp
        · exact hs b
      · exact hs b

theorem connFold_not_result (evs : List CEvent) (s : ConnCallbackState)
    (hs : ∀ b, s.connectionFuture ≠ .result b)
    (he : CEvent.connect 0 ∉ evs) :
    ∀ b, (evs.foldl connStep s).connectionFuture ≠ .result b := by
  induction evs generalizing s with
  | nil => exact hs
  | cons e evs ih =>
      have he1 : e ≠ CEvent.connect 0 := fun h => he (by simp [h])
      have he2 : CEvent.connect 0 ∉ evs := fun h => he (List.mem_cons_of_mem _ h)
      exact ih (connStep s e) (connStep_not_result s e hs he1) he2

theorem on_message_mismatch (topic : String) (o : Option Handler)
    (s : MsgWaitState) (m : MqttMessage) (h : m.topic ≠ topic) :
    (on_message topic o s m).future = s.future ∧
    (on_message topic o s m).forwarded =
      (if o.isSome then s.forwarded ++ [m] else s.forwarded) := by
  cases hf : s.future with
  | none =>
      simp only [on_message, hf]
      split <;> simp_all
  | some f =>
      have hc : ¬ (m.topic = topic ∧ ¬ f.done = true) := fun hcon => h hcon.1
      simp only [on_message, hf, if_neg hc]
      split <;> simp_all

theorem on_message_fold_mismatch (topic : String) (o : Option Handler)
    (msgs : List MqttMessage) (s : MsgWaitState)
    (h : ∀ m ∈ msgs, m.topic ≠ topic) :
    (msgs.foldl (on_message topic o) s).future = s.future ∧
    (msgs.foldl (on_message topic o) s).forwarded =
      s.forwarded ++ (if o.isSome then msgs else []) := by
  induction msgs generalizing s with
  | nil => simp
  | cons m msgs ih =>
      have hm := on_message_mismatch topic o s m (h m (by simp))
      have hrest := ih (on_message topic o s m)
        (fun m' hm' => h m' (List.mem_cons_of_mem _ hm'))
      constructor
      · rw [List.foldl_cons, hrest.1, hm.1]
      · rw [List.foldl_cons, hrest.2, hm.2]
        by_cases ho : o.isSome <;> simp [ho]

theorem on_message_preserves_future_done (topic : String) (o : Option Handler)
    (s : MsgWaitState) (m : MqttMessage) (f : FutureState String)
    (hf : s.future = some f) (hd : f.done = true) :
    (on_message topic o s m).future = s.future := by
  have hc : ¬ (m.topic = topic ∧ ¬ f.done = true) := fun hcon => hcon.2 hd
  simp only [on_message, hf, if_neg hc]
  split <;> simp [hf]

theorem on_message_fold_done (topic : String) (o : Option Handler)
    (msgs : List MqttMessage) (s : MsgWaitState) (f : FutureState String)
    (hf : s.future = some f) (hd : f.done = true) :
    (msgs.foldl (on_message topic o) s).future = s.future := by
  induction msgs generalizing s with
  | nil => rfl
  | cons m msgs ih =>
      have h1 := on_message_preserves_future_done topic o s m f hf hd
      calc (List.foldl (on_message topic o) s (m :: msgs)).future
          = (List.foldl (on_message topic o) (on_message topic o s m) msgs).future := rfl
        _ = (on_message topic o s m).future := ih (on_message topic o s m) (h1.trans hf)
        _ = s.future := h1

theorem on_message_match (topic : String) (o : Option Handler)
    (s : MsgWaitState) (f : FutureState String) (m : MqttMessage) (str : String)
    (hf : s.future = some f) (hp : f.done = false)
    (ht : m.topic = topic) (hd : decodePayload m.payload = some str) :
    (on_message topic o s m).future = some (FutureState.result str) ∧
    (on_message topic o s m).forwarded = s.forwarded := by
  have hc : m.topic = topic ∧ ¬ f.done = true := ⟨ht, by simp [hp]⟩
  simp only [on_message, hf, if_pos hc, hd]
  simp [setResult_of_pending _ _ hp]

theorem on_message_match_decodefail (topic : String) (o : Option Handler)
    (s : MsgWaitState) (f : FutureState String) (m : MqttMessage)
    (hf : s.future = some f) (hp : f.done = false)
    (ht : m.topic = topic) (hd : decodePayload m.payload = none) :
    (on_message topic o s m).future = some (FutureState.failure .decodeError) ∧
    (on_message topic o s m).forwarded = s.forwarded := by
  have hc : m.topic = topic ∧ ¬ f.done = true := ⟨ht, by simp [hp]⟩
  simp only [on_message, hf, if_pos hc, hd]
  rw [if_neg (by simp [hp]), setException_of_pending _ _ hp]
  simp

theorem on_subscribe_preserves_done (o : Option Handler) (s : SubWaitState)
    (mid : Nat) (h : s.future.done = true) :
    (on_subscribe o s mid).future = s.future := by
  simp only [on_subscribe, h]
  split <;> simp

theorem subFold_done (o : Option Handler) (mids : List Nat) (s : SubWaitState)
    (h : s.future.done = true) :
    (mids.foldl (on_subscribe o) s).future = s.future := by
  induction mids generalizing s with
  | nil => rfl
  | cons mid mids ih =>
      have h1 := on_subscribe_preserves_done o s mid h
      have h2 : (on_subscribe o s mid).future.done = true := by rw [h1]; exact h
      calc (List.foldl (on_subscribe o) s (mid :: mids)).future
          = (List.foldl (on_subscribe o) (on_subscribe o s mid) mids).future := rfl
        _ = (on_subscribe o s mid).future := ih (on_subscribe o s mid) h2
        _ = s.future := h1

theorem restoreFinally_onMessage (orig cur : Handlers) :
    (restoreFinally orig cur).onMessage = orig.onMessage := by
  cases hm : orig.onMessage <;> cases hs : orig.onSubscribe <;>
    simp [restoreFinally, hm, hs]

theorem restoreFinally_onSubscribe (orig cur : Handlers) :
    (restoreFinally orig cur).onSubscribe =
      (if orig.onSubscribe.isSome then orig.onSubscribe else cur.onSubscribe) := by
  cases hm : orig.onMessage <;> cases hs : orig.onSubscribe <;>
    simp [restoreFinally, hm, hs]

theorem restoreOnError_onMessage (orig cur : Handlers) :
    (restoreOnError orig cur).onMessage =
      (if orig.onMessage.isSome then orig.onMessage else cur.onMessage) := by
  cases hm : orig.onMessage <;> cases hs : orig.onSubscribe <;>
    simp [restoreOnError, hm, hs]

theorem restoreOnError_onSubscribe (orig cur : Handlers) :
    (restoreOnError orig cur).onSubscribe =
      (if orig.onSubscribe.isSome then orig.onSubscribe else cur.onSubscribe) := by
  cases hm : orig.onMessage <;> cases hs : orig.onSubscribe <;>
    simp [restoreOnError, hm, hs]

theorem readinessActive_stop_loop (s : HelperState) :
    readinessActive (stop_loop s) = false := by
  by_cases hw : s.isWindows
  · simp [stop_loop, readinessActive, hw]
  · cases hm : s.misc with
    | none => simp [stop_loop, readinessActive, hw, hm]
    | some t => simp [stop_loop, readinessActive, hw, hm]

theorem stop_loop_idem (s : HelperState) :
    stop_loop (stop_loop s) = stop_loop s := by
  by_cases hw : s.isWindows
  · simp [stop_loop, hw]
  · cases hm : s.misc with
    | none => simp [stop_loop, hw, hm]
    | some t => simp [stop_loop, hw, hm]

/-! ### Claim theorems -/

/-- C6: `publish` fails immediately with a publish-error carrying the broker
code exactly when the broker-assigned send result is not success; on success,
for qos 0 no acknowledgment wait happens, for positive qos the delivery
confirmation is awaited with a 5 second bound, and a 0.1 second flush sleep
precedes the return. -/
theorem c6_publish_ack (rc qos : Nat) :
    ((publish rc qos).outcome = .error (.publishFailed rc) ↔ rc ≠ mqttErrSuccess) ∧
    (rc ≠ mqttErrSuccess →
      (publish rc qos).ackWaitMs = none ∧ (publish rc qos).flushDelayMs = none) ∧
    (rc = mqttErrSuccess → qos = 0 →
      (publish rc qos).outcome = .ok () ∧ (publish rc qos).ackWaitMs = none ∧
      (publish rc qos).flushDelayMs = some 100) ∧
    (rc = mqttErrSuccess → 0 < qos →
      (publish rc qos).outcome = .ok () ∧ (publish rc qos).ackWaitMs = some 5000 ∧
      (publish rc qos).flushDelayMs = some 100) := by
  by_cases h : rc = mqttErrSuccess
  · refine ⟨by simp [publish, h], fun hc => absurd h hc, fun _ hq => ?_, fun _ hq => ?_⟩
    · simp [publish, h, hq]
    · simp [publish, h, Nat.pos_iff_ne_zero.mp hq, hq]
  · refine ⟨by simp [publish, h], fun _ => by simp [publish, h],
      fun hc => absurd hc h, fun hc => absurd hc h⟩

/-- Witness for C6 at send results 0 and 4 and qos 0 and 1. -/
theorem c6_witness :
    (publish 0 0).ackWaitMs = none ∧ (publish 0 0).flushDelayMs = some 100 ∧
    (publish 0 1).outcome = .ok () ∧ (publish 0 1).ackWaitMs = some 5000 ∧
    (publish 4 1).outcome = .error (.publishFailed 4) ∧
    (publish 4 1).ackWaitMs = none := by
  have h00 := c6_publish_ack 0 0
  have h01 := c6_publish_ack 0 1
  have h41 := c6_publish_ack 4 1
  exact ⟨(h00.2.2.1 rfl rfl).2.1, (h00.2.2.1 rfl rfl).2.2,
    (h01.2.2.2 rfl (by decide)).1, (h01.2.2.2 rfl (by decide)).2.1,
    h41.1.mpr (by decide), (h41.2.1 (by decide)).1⟩

/-- C7: `receive` fails immediately (no waits in its trace) with a
subscribe-error carrying the broker code when the subscribe result is not
success; otherwise its trace is the 2 second SUBACK wait flagged non-fatal,
the 0.2 second settle sleep, then the message wait; and nothing about the
call depends on whether the SUBACK arrived inside its wait. -/
theorem c7_receive_subscribe (orig : Handlers) (topic : String) (t : Nat)
    (subRc : Nat) (msgs : List MqttMessage) :
    (subRc ≠ mqttErrSuccess →
      receive orig topic t subRc true msgs =
        { outcome := .error (.subscribeFailed subRc)
          handlers := restoreOnError orig installedHandlers
          forwarded := []
          trace := [] }) ∧
    (subRc = mqttErrSuccess →
      (receive orig topic t subRc true msgs).trace =
        [.waitSubAck 2000 false, .settleSleep 200, .waitMessage t]) ∧
    (∀ a b : Bool,
      receive orig topic t subRc a msgs = receive orig topic t subRc b msgs) := by
  refine ⟨fun h => by simp [receive, h], fun h => by simp [receive, h],
    fun a b => rfl⟩

/-- Witness for C7 at subscribe results 3 and 0. -/
theorem c7_witness :
    receive { onMessage := none, onSubscribe := none } "t" 60 3 true [] =
      { outcome := .error (.subscribeFailed 3)
        handlers := restoreOnError { onMessage := none, onSubscribe := none }
          installedHandlers
        forwarded := []
        trace := [] } ∧
    (receive { onMessage := none, onSubscribe := none } "t" 60 0 true []).trace =
      [.waitSubAck 2000 false, .settleSleep 200, .waitMessage 60] ∧
    receive { onMessage := none, onSubscribe := none } "t" 60 0 true [] =
      receive { onMessage := none, onSubscribe := none } "t" 60 0 false [] := by
  have h3 := c7_receive_subscribe { onMessage := none, onSubscribe := none } "t" 60 3 []
  have h0 := c7_receive_subscribe { onMessage := none, onSubscribe := none } "t" 60 0 []
  exact ⟨h3.1 (by decide), h0.2.1 rfl, h0.2.2 true false⟩

/-- C9: `__aexit__` is total (each sub-step is a total function, so a second
call cannot raise) and idempotent on the state: a repeat call yields the same
state and the same trace. Each call leaves no readiness loop running, leaves
the connection disconnected, reports the disconnect in its trace together
with the 0.1 second grace sleep, and is a no-op on the helper when no
maintenance task was ever created (attach partially failed). -/
theorem c9_close_idempotent (s : CloseState) :
    (aexit (aexit s).1).1 = (aexit s).1 ∧
    (aexit s).2 = { disconnectIssued := true, graceDelayMs := 100 } ∧
    (aexit (aexit s).1).2 = { disconnectIssued := true, graceDelayMs := 100 } ∧
    readinessActive (aexit s).1.helper = false ∧
    (aexit s).1.conn.connected = false ∧
    (∀ (b : Bool) (c : ClientConn),
      (aexit { helper := { isWindows := false, loopStarted := b, misc := none }
               conn := c }).1.helper
        = { isWindows := false, loopStarted := b, misc := none }) := by
  refine ⟨?_, rfl, rfl, ?_, ?_, ?_⟩
  · by_cases hc : s.conn.connected <;>
      simp [aexit, mqtt_disconnect, hc, stop_loop_idem]
  · simpa [aexit] using readinessActive_stop_loop s.helper
  · by_cases hc : s.conn.connected <;> simp [aexit, mqtt_disconnect, hc]
  · intro b c
    simp [aexit, stop_loop]

/-- C1 as stated is false: with no previously installed handlers, a
successful `receive` leaves the temporary `on_subscribe` closure installed
(the `finally` block only writes the slot back when a truthy original was
saved), so the handler set after the call differs from the pre-call state. -/
theorem c1_counterexample :
    ¬ ((receive { onMessage := none, onSubscribe := none } "t" 60 mqttErrSuccess
        true []).handlers = { onMessage := none, onSubscribe := none }) := by
  decide

/-- C1 amended: on the normal-completion path (message delivered, timeout, or
an exception from the message wait) `on_message` is restored exactly, even
when no previous handler existed; `on_subscribe` is restored exactly only
when a previous handler existed, and otherwise the temporary subscribe
closure stays installed; on the subscribe-failure path each slot is restored
only when a previous handler of that type existed, and otherwise keeps its
temporary closure. -/
theorem c1_handler_restoration (orig : Handlers) (topic : String) (t : Nat)
    (subRc : Nat) (ack : Bool) (msgs : List MqttMessage) :
    (subRc = mqttErrSuccess →
      (receive orig topic t subRc ack msgs).handlers.onMessage = orig.onMessage) ∧
    (∀ h, orig.onSubscribe = some h →
      (receive orig topic t subRc ack msgs).handlers.onSubscribe = some h) ∧
    (orig.onSubscribe = none →
      (receive orig topic t subRc ack msgs).handlers.onSubscribe
        = some .tempOnSubscribe) ∧
    (subRc ≠ mqttErrSuccess → ∀ h, orig.onMessage = some h →
      (receive orig topic t subRc ack msgs).handlers.onMessage = some h) ∧
    (subRc ≠ mqttErrSuccess → orig.onMessage = none →
      (receive orig topic t subRc ack msgs).handlers.onMessage
        = some .tempOnMessage) := by
  refine ⟨?_, ?_, ?_, ?_, ?_⟩
  · intro hrc
    simp [receive, hrc, restoreFinally_onMessage]
  · intro h hsub
    by_cases hrc : subRc = mqttErrSuccess <;>
      simp [receive, hrc, restoreFinally_onSubscribe, restoreOnError_onSubscribe, hsub]
  · intro hsub
    by_cases hrc : subRc = mqttErrSuccess <;>
      simp [receive, hrc, restoreFinally_onSubscribe, restoreOnError_onSubscribe,
        hsub, installedHandlers]
  · intro hrc h hmsg
    simp [receive, hrc, restoreOnError_onMessage, hmsg]
  · intro hrc hmsg
    simp [receive, hrc, restoreOnError_onMessage, hmsg, installedHandlers]

/-- Witness for the amended C1 on both exit paths, with and without
previously installed handlers. -/
theorem c1_witness :
    (receive { onMessage := none, onSubscribe := some (.prev 7) } "t" 60
        mqttErrSuccess true []).handlers.onMessage = none ∧
    (receive { onMessage := none, onSubscribe := some (.prev 7) } "t" 60
        mqttErrSuccess true []).handlers.onSubscribe = some (.prev 7) ∧
    (receive { onMessage := none, onSubscribe := none } "t" 60
        mqttErrSuccess true []).handlers.onSubscribe = some .tempOnSubscribe ∧
    (receive { onMessage := some (.prev 3), onSubscribe := none } "t" 60
        3 true []).handlers.onMessage = some (.prev 3) ∧
    (receive { onMessage := none, onSubscribe := none } "t" 60
        3 true []).handlers.onMessage = some .tempOnMessage := by
  have h1 := c1_handler_restoration
    { onMessage := none, onSubscribe := some (.prev 7) } "t" 60 mqttErrSuccess true []
  have h2 := c1_handler_restoration
    { onMessage := none, onSubscribe := none } "t" 60 mqttErrSuccess true []
  have h3 := c1_handler_restoration
    { onMessage := some (.prev 3), onSubscribe := none } "t" 60 3 true []
  have h4 := c1_handler_restoration
    { onMessage := none, onSubscribe := none } "t" 60 3 true []
  exact ⟨h1.1 rfl, h1.2.1 _ rfl, h2.2.2.1 rfl,
    h3.2.2.2.1 (by decide) _ rfl, h4.2.2.2.2 (by decide) rfl⟩

/-- C3 as stated is false: with the connection established (the connect
future already settled with a result) and a receive consumer still waiting,
a transport disconnect with non-zero reason code leaves the whole state
unchanged, so no failure is delivered to the waiting consumer. -/
theorem c3_counterexample :
    on_disconnect 1 { connectionFuture := .result true, receiveFuture := some .pending }
      = { connectionFuture := .result true, receiveFuture := some .pending } ∧
    (on_disconnect 1
      { connectionFuture := .result true, receiveFuture := some .pending }).receiveFuture
      = some .pending := by
  exact ⟨by decide, by decide⟩

/-- C3 amended: `on_disconnect` never touches the receive-wait future at all;
a non-zero reason code is delivered as an unexpected-disconnect failure only
to the connect-outcome future, and only when that future is not yet settled;
when the connect future is already settled, or the reason code is zero, the
callback does nothing. -/
theorem c3_disconnect_delivery (s : ConnCallbackState) (rc : Nat) :
    ((on_disconnect rc s).receiveFuture = s.receiveFuture) ∧
    (rc ≠ 0 → s.connectionFuture.done = false →
      (on_disconnect rc s).connectionFuture = .failure (.disconnected rc)) ∧
    (s.connectionFuture.done = true → on_disconnect rc s = s) ∧
    (rc = 0 → on_disconnect rc s = s) := by
  refine ⟨?_, ?_, ?_, ?_⟩
  · by_cases hrc : rc = 0
    · simp [on_disconnect, hrc]
    · by_cases hd : s.connectionFuture.done = true <;>
        simp [on_disconnect, hrc, hd]
  · intro hrc hd
    simp [on_disconnect, hrc, hd, setException_of_pending _ _ hd]
  · intro hd
    simp [on_disconnect, hd]
  · intro hrc
    simp [on_disconnect, hrc]

/-- Witness for the amended C3: a disconnect before the CONNACK fails the
connect future; after the connection is up it changes nothing, leaving a
waiting receive future pending. -/
theorem c3_witness :
    (on_disconnect 7 { connectionFuture := .pending, receiveFuture := none }).connectionFuture
      = .failure (.disconnected 7) ∧
    on_disconnect 7 { connectionFuture := .result true, receiveFuture := some .pending }
      = { connectionFuture := .result true, receiveFuture := some .pending } ∧
    (on_disconnect 7
      { connectionFuture := .result true, receiveFuture := some .pending }).receiveFuture
      = some .pending := by
  have h1 := c3_disconnect_delivery
    { connectionFuture := .pending, receiveFuture := none } 7
  have h2 := c3_disconnect_delivery
    { connectionFuture := .result true, receiveFuture := some .pending } 7
  exact ⟨h1.2.1 (by decide) (by decide), h2.2.2.1 (by decide), h2.1⟩

/-- C2: `__aenter__` returns successfully only if a CONNACK with reason code
0 was observed; when the 5 second wait window closes with the connect future
still pending, it stops the readiness loop and fails with the
connection-timeout error naming host and port; when the broker rejects the
connection (first settling event is a CONNACK with non-zero reason code) it
fails with the error carrying that code. -/
theorem c2_open_outcome (host : String) (port : Nat) (hl : HelperState)
    (evs : List CEvent) :
    ((aenter host port hl evs).outcome = .ok () → CEvent.connect 0 ∈ evs) ∧
    ((evs.foldl connStep
        { connectionFuture := .pending, receiveFuture := none }).connectionFuture
        = .pending →
      aenter host port hl evs =
        { outcome := .error (.connectTimeout host port)
          helper := stop_loop (start_loop hl)
          waitMs := connectWaitMs } ∧
      readinessActive (aenter host port hl evs).helper = false) ∧
    (∀ (pre : List CEvent) (rc : Nat) (post : List CEvent),
      (pre.foldl connStep
        { connectionFuture := .pending, receiveFuture := none }).connectionFuture
        = .pending →
      rc ≠ 0 →
      (aenter host port hl (pre ++ CEvent.connect rc :: post)).outcome
        = .error (.connectFailed rc)) ∧
    (Err.connectTimeout host port).message =
      "Failed to connect to MQTT broker at " ++ host ++ ":" ++ toString port
        ++ " (timeout)" ∧
    (aenter host port hl evs).waitMs = 5000 := by
  refine ⟨?_, ?_, ?_, rfl, ?_⟩
  · intro hok
    by_contra hmem
    have hnr := connFold_not_result evs
      { connectionFuture := .pending, receiveFuture := none } (by intro b; simp) hmem
    cases hf : (evs.foldl connStep
        { connectionFuture := .pending, receiveFuture := none }).connectionFuture with
    | pending => simp [aenter, hf] at hok
    | result b => exact hnr b hf
    | failure e => simp [aenter, hf] at hok
  · intro hp
    constructor
    · simp [aenter, hp]
    · simp [aenter, hp, readinessActive_stop_loop]
  · intro pre rc post hpre hrc
    have hstep : (connStep (pre.foldl connStep
        { connectionFuture := .pending, receiveFuture := none }) (.connect rc)).connectionFuture
        = .failure (.connectFailed rc) := by
      simp only [connStep, on_connect, if_neg hrc]
      rw [hpre]
      rfl
    have hfold : (post.foldl connStep (connStep (pre.foldl connStep
        { connectionFuture := .pending, receiveFuture := none })
          (.connect rc))).connectionFuture
        = .failure (.connectFailed rc) := by
      calc (post.foldl connStep (connStep (pre.foldl connStep
            { connectionFuture := .pending, receiveFuture := none })
              (.connect rc))).connectionFuture
          = (connStep (pre.foldl connStep
            { connectionFuture := .pending, receiveFuture := none })
              (.connect rc)).connectionFuture := by
            apply connFold_done
            rw [hstep]
            rfl
        _ = .failure (.connectFailed rc) := hstep
    simp [aenter, List.foldl_append, hfold]
  · cases hf : (evs.foldl connStep
        { connectionFuture := .pending, receiveFuture := none }).connectionFuture <;>
      simp [aenter, hf, connectWaitMs]

/-- Witness for C2: an empty event window times out, stops the loop and
names host and port; a lone rejection CONNACK with code 7 raises the
rejection error; success on a window containing CONNACK 0 implies that
CONNACK was observed. -/
theorem c2_witness :
    CEvent.connect 0 ∈ [CEvent.connect 0] ∧
    aenter "localhost" 1883 { isWindows := false, loopStarted := false, misc := none } [] =
      { outcome := .error (.connectTimeout "localhost" 1883)
        helper := stop_loop (start_loop
          { isWindows := false, loopStarted := false, misc := none })
        waitMs := connectWaitMs } ∧
    (aenter "localhost" 1883 { isWindows := false, loopStarted := false, misc := none }
      ([] ++ CEvent.connect 7 :: [])).outcome = .error (.connectFailed 7) := by
  have h1 := c2_open_outcome "localhost" 1883
    { isWindows := false, loopStarted := false, misc := none } [CEvent.connect 0]
  have h2 := c2_open_outcome "localhost" 1883
    { isWindows := false, loopStarted := false, misc := none } []
  exact ⟨h1.1 (by decide), (h2.2.1 rfl).1, h2.2.2.1 [] 7 [] rfl (by decide)⟩

/-- C5: every outcome signal settles at most once: once the connect future,
the message future or the subscribe future is done, no further sequence of
transport callback invocations changes it (asyncio refuses the second
settlement and the stored outcome stays); in particular a CONNACK arriving
after a disconnect already failed the connect future leaves the stored
failure in place. -/
theorem c5_settle_at_most_once :
    (∀ (evs : List CEvent) (s : ConnCallbackState), s.connectionFuture.done = true →
      (evs.foldl connStep s).connectionFuture = s.connectionFuture) ∧
    (∀ (topic : String) (o : Option Handler) (msgs : List MqttMessage)
        (s : MsgWaitState) (f : FutureState String),
      s.future = some f → f.done = true →
      (msgs.foldl (on_message topic o) s).future = s.future) ∧
    (∀ (o : Option Handler) (mids : List Nat) (s : SubWaitState),
      s.future.done = true → (mids.foldl (on_subscribe o) s).future = s.future) ∧
    (∀ (rf : Option (FutureState String)) (rc : Nat),
      ([CEvent.disconnect 1, CEvent.connect rc].foldl connStep
        { connectionFuture := .pending, receiveFuture := rf }).connectionFuture
        = .failure (.disconnected 1)) := by
  refine ⟨connFold_done, ?_, subFold_done, ?_⟩
  · intro topic o msgs s f hf hd
    exact on_message_fold_done topic o msgs s f hf hd
  · intro rf rc
    by_cases hrc : rc = 0 <;>
      simp [List.foldl, connStep, on_disconnect, on_connect, hrc,
        FutureState.setException, FutureState.setResult, FutureState.done]

/-- Witness for C5: a second CONNACK cannot overwrite the settled connect
future, a second matching message cannot overwrite the settled message
future, a second SUBACK cannot overwrite the settled subscribe future, and a
CONNACK after a failing disconnect leaves the failure in place. -/
theorem c5_witness :
    (List.foldl connStep
      { connectionFuture := .result true, receiveFuture := none }
      [CEvent.connect 5]).connectionFuture = .result true ∧
    (List.foldl (on_message "t" none)
      { future := some (.result "h"), forwarded := [] }
      [{ topic := "t", payload := [105] }]).future = some (.result "h") ∧
    (List.foldl (on_subscribe none) { future := .result true, forwarded := [] }
      [2]).future = .result true ∧
    (List.foldl connStep { connectionFuture := .pending, receiveFuture := none }
      [CEvent.disconnect 1, CEvent.connect 0]).connectionFuture
      = .failure (.disconnected 1) := by
  have h := c5_settle_at_most_once
  exact ⟨h.1 [CEvent.connect 5]
      { connectionFuture := .result true, receiveFuture := none } (by decide),
    h.2.1 "t" none [{ topic := "t", payload := [105] }]
      { future := some (.result "h"), forwarded := [] } (.result "h") rfl (by decide),
    h.2.2.1 none [2] { future := .result true, forwarded := [] } (by decide),
    h.2.2.2 none 0⟩

/-- C4: during a receive wait for a topic, a message on a different topic
never changes the wait future and is appended unchanged to the stream handed
to the previously installed message handler when one exists; and when every
message before the first one on the requested topic is on a different topic
and that first matching message decodes, `receive` returns exactly its
decoded text. -/
theorem c4_topic_filtering (topic : String) (orig : Handlers) (t : Nat)
    (ack : Bool) (pre post : List MqttMessage) (m : MqttMessage) (str : String) :
    (∀ (s : MsgWaitState) (m2 : MqttMessage), m2.topic ≠ topic →
      (on_message topic orig.onMessage s m2).future = s.future ∧
      (on_message topic orig.onMessage s m2).forwarded =
        (if orig.onMessage.isSome then s.forwarded ++ [m2] else s.forwarded)) ∧
    ((∀ m2 ∈ pre, m2.topic ≠ topic) → m.topic = topic →
      decodePayload m.payload = some str →
      (receive orig topic t mqttErrSuccess ack (pre ++ m :: post)).outcome
        = .ok str) := by
  constructor
  · exact fun s m2 h => on_message_mismatch topic orig.onMessage s m2 h
  · intro hpre ht hd
    have h1 := (on_message_fold_mismatch topic orig.onMessage pre
      { future := some .pending, forwarded := [] } hpre).1
    have h2 := on_message_match topic orig.onMessage
      (pre.foldl (on_message topic orig.onMessage)
        { future := some .pending, forwarded := [] })
      .pending m str h1 rfl ht hd
    have h3 := on_message_fold_done topic orig.onMessage post
      (on_message topic orig.onMessage
        (pre.foldl (on_message topic orig.onMessage)
          { future := some .pending, forwarded := [] }) m)
      (.result str) h2.1 rfl
    simp [receive, List.foldl_append, h3, h2.1, awaitFuture]

/-- Witness for C4: with a chained handler installed, a message on topic b
leaves the wait future pending and is forwarded; the later message on
topic a settles the wait and `receive` returns its decoded payload. -/
theorem c4_witness :
    (on_message "a" (some (Handler.prev 0))
      { future := some .pending, forwarded := [] }
      { topic := "b", payload := [120] }).future = some .pending ∧
    (on_message "a" (some (Handler.prev 0))
      { future := some .pending, forwarded := [] }
      { topic := "b", payload := [120] }).forwarded
      = [{ topic := "b", payload := [120] }] ∧
    (receive { onMessage := some (Handler.prev 0), onSubscribe := none } "a" 60
      mqttErrSuccess true
      ([{ topic := "b", payload := [120] }]
        ++ { topic := "a", payload := [104, 105] } :: [])).outcome = .ok "hi" := by
  have h := c4_topic_filtering "a"
    { onMessage := some (Handler.prev 0), onSubscribe := none } 60 true
    [{ topic := "b", payload := [120] }] [] { topic := "a", payload := [104, 105] } "hi"
  refine ⟨?_, ?_, h.2 (by decide) (by decide) (by decide)⟩
  · exact (h.1 { future := some .pending, forwarded := [] }
      { topic := "b", payload := [120] } (by decide)).1
  · simpa using (h.1 { future := some .pending, forwarded := [] }
      { topic := "b", payload := [120] } (by decide)).2

/-- C8: when no message on the requested topic arrives inside the wait
window, `receive` fails with the timeout error of the message wait (whose
bound is the caller-supplied timeout, as the trace records) and the
`finally` restoration step still runs. -/
theorem c8_receive_timeout (orig : Handlers) (topic : String) (t : Nat)
    (ack : Bool) (msgs : List MqttMessage)
    (hno : ∀ m ∈ msgs, m.topic ≠ topic) :
    (receive orig topic t mqttErrSuccess ack msgs).outcome = .error .timeoutError ∧
    (receive orig topic t mqttErrSuccess ack msgs).handlers
      = restoreFinally orig installedHandlers ∧
    Step.waitMessage t ∈ (receive orig topic t mqttErrSuccess ack msgs).trace := by
  have h1 := (on_message_fold_mismatch topic orig.onMessage msgs
    { future := some .pending, forwarded := [] } hno).1
  refine ⟨?_, by simp [receive], by simp [receive]⟩
  simp [receive, h1, awaitFuture]

/-- Witness for C8 on an empty wait window with timeout 60. -/
theorem c8_witness :
    (receive { onMessage := none, onSubscribe := none } "a" 60 mqttErrSuccess
      true []).outcome = .error .timeoutError ∧
    (receive { onMessage := none, onSubscribe := none } "a" 60 mqttErrSuccess
      true []).handlers
      = restoreFinally { onMessage := none, onSubscribe := none } installedHandlers ∧
    Step.waitMessage 60 ∈ (receive { onMessage := none, onSubscribe := none }
      "a" 60 mqttErrSuccess true []).trace := by
  have h := c8_receive_timeout { onMessage := none, onSubscribe := none }
    "a" 60 true [] (by simp)
  exact ⟨h.1, h.2.1, h.2.2⟩

/-- C10: when the first message on the requested topic has a payload that is
not valid UTF-8, the decode exception settles the wait and `receive` raises
it instead of returning a value or skipping the message. -/
theorem c10_decode_exception (orig : Handlers) (topic : String) (t : Nat)
    (ack : Bool) (pre post : List MqttMessage) (m : MqttMessage)
    (hpre : ∀ m2 ∈ pre, m2.topic ≠ topic) (ht : m.topic = topic)
    (hd : decodePayload m.payload = none) :
    (receive orig topic t mqttErrSuccess ack (pre ++ m :: post)).outcome
      = .error .decodeError := by
  have h1 := (on_message_fold_mismatch topic orig.onMessage pre
    { future := some .pending, forwarded := [] } hpre).1
  have h2 := on_message_match_decodefail topic orig.onMessage
    (pre.foldl (on_message topic orig.onMessage)
      { future := some .pending, forwarded := [] })
    .pending m h1 rfl ht hd
  have h3 := on_message_fold_done topic orig.onMessage post
    (on_message topic orig.onMessage
      (pre.foldl (on_message topic orig.onMessage)
        { future := some .pending, forwarded := [] }) m)
    (.failure .decodeError) h2.1 rfl
  simp [receive, List.foldl_append, h3, h2.1, awaitFuture]

/-- Witness for C10: the single byte 0xFF is not valid UTF-8, so the receive
raises the decode error. -/
theorem c10_witness :
    (receive { onMessage := none, onSubscribe := none } "a" 60 mqttErrSuccess
      true ([] ++ { topic := "a", payload := [255] } :: [])).outcome
      = .error .decodeError := by
  exact c10_decode_exception { onMessage := none, onSubscribe := none } "a" 60
    true [] [] { topic := "a", payload := [255] } (by simp) (by decide) (by decide)

end MqttMcp
